import Mathlib

/-!
Verification of the pagination engine of `backend/pdf_service.py`
(`measure_content_and_split`, lines 92-233).

The function receives, from the measurement surface (a headless browser),
* the scroll height of the rendered ingredients column,
* the combined height of the ingredients-column headers (section title and
  servings info), measured only when the column overflows,
* one `{height, isSubheader}` record per ingredient block (items and
  subheaders, in document order), measured only when the column overflows,
* one height per instruction block,
and, from the recipe, the number of ingredient entries and the number of
instruction entries.  It returns a split plan of index lists.

All heights are browser `offsetHeight`/`scrollHeight` values: non-negative
integers, embedded as `Nat`.  `remaining_right_column_height` may become
negative, so it is an `Int`.  Python integer arithmetic is exact, so no
modular reduction is needed.
-/

namespace PdfService

/-- A4 page height at 96 DPI, `PAGE_HEIGHT` (line 105). -/
def PAGE_HEIGHT : Nat := 1123

/-- Combined top and bottom padding, `PADDING_TOP_BOTTOM` (line 106). -/
def PADDING_TOP_BOTTOM : Nat := 189

/-- `AVAILABLE_HEIGHT = PAGE_HEIGHT - PADDING_TOP_BOTTOM` (line 107). -/
def AVAILABLE_HEIGHT : Nat := PAGE_HEIGHT - PADDING_TOP_BOTTOM

/-- One measured ingredient block, the `{height, isSubheader}` record built
by the page evaluation at lines 143-151. -/
structure IngBlock where
  height : Nat
  isSubheader : Bool
deriving DecidableEq, Repr

/-- The measurements and recipe counts consumed by
`measure_content_and_split`.   `ingredientsColumnHeight` is the scroll
height measured at lines 110-115; `headerHeight` and `ingredientBlocks`
are the conditional measurements at lines 134-151; `instructionHeights`
the measurement at lines 206-211; the two counts come from
`len(recipe['ingredients'])` and `len(recipe['instructions'])`. -/
structure MeasureInput where
  numIngredients : Nat
  numInstructions : Nat
  ingredientsColumnHeight : Nat
  headerHeight : Nat
  ingredientBlocks : List IngBlock
  instructionHeights : List Nat
deriving DecidableEq, Repr

/-- The returned `split_data` dictionary (lines 122-128). -/
structure SplitData where
  ingredients_overflow : Bool
  left_column_ingredients : List Nat
  right_column_ingredients : List Nat
  first_page_instructions : List Nat
  overflow_instructions : List Nat
deriving DecidableEq, Repr

/-- Python `list(range(a, b))`: the indices `a, a+1, ..., b-1`, empty when
`b ≤ a`. -/
def pyRange (a b : Nat) : List Nat := List.range' a (b - a)

/-- `ingredients_overflow = ingredients_height > AVAILABLE_HEIGHT`
(line 120). -/
def ingredientsOverflowOf (inp : MeasureInput) : Bool :=
  decide (AVAILABLE_HEIGHT < inp.ingredientsColumnHeight)

/-- The phase-1 first-fit walk over ingredient blocks (lines 157-169):
state is `(cumulative_height, ingredient_count)`; a block whose height
would push the running total past `AVAILABLE_HEIGHT` stops the walk;
a block that fits is added to the running total and, when it is not a
subheader, bumps the count of fitted ingredients.  Returns the loop
state at exit. -/
def ingredientFitState (cum count : Nat) : List IngBlock → Nat × Nat
  | [] => (cum, count)
  | b :: rest =>
    if AVAILABLE_HEIGHT < cum + b.height then (cum, count)
    else ingredientFitState (cum + b.height)
      (if b.isSubheader then count else count + 1) rest

/-- `ingredient_split` (lines 171-172): the number of actual (non-subheader)
ingredients that fit in the left column. -/
def ingredientSplitOf (inp : MeasureInput) : Nat :=
  (ingredientFitState inp.headerHeight 0 inp.ingredientBlocks).2

/-- The phase-2 overflow-height walk (lines 181-192): `counter` counts the
non-subheader blocks seen so far; a block is charged when the counter has
reached `split`; non-subheader blocks advance the counter. -/
def overflowHeightFrom (split counter : Nat) : List IngBlock → Nat
  | [] => 0
  | b :: rest =>
    if b.isSubheader then
      (if split ≤ counter then b.height else 0)
        + overflowHeightFrom split counter rest
    else
      (if split ≤ counter then b.height else 0)
        + overflowHeightFrom split (counter + 1) rest

/-- `overflow_height` for a given input (lines 181-192). -/
def overflowHeightOf (inp : MeasureInput) : Nat :=
  overflowHeightFrom (ingredientSplitOf inp) 0 inp.ingredientBlocks

/-- `overflow_container_height = overflow_height + 80 + 40` (line 195):
the continued-heading allowance and the container padding allowance. -/
def overflowContainerHeightOf (inp : MeasureInput) : Nat :=
  overflowHeightOf inp + 80 + 40

/-- `remaining_right_column_height` (lines 196 and 202): the full available
height when ingredients do not overflow, otherwise the available height
minus the overflow container height (may be negative). -/
def remainingRightColumnHeightOf (inp : MeasureInput) : Int :=
  if ingredientsOverflowOf inp then
    (AVAILABLE_HEIGHT : Int) - (overflowContainerHeightOf inp : Int)
  else (AVAILABLE_HEIGHT : Int)

/-- The phase-3 first-fit walk over instruction heights (lines 217-222):
running total starts at the 80px instructions title; `split` is bumped to
`i + 1` for every instruction that fits. -/
def instructionFitCount (remaining cum : Int) (split : Nat) :
    List Nat → Nat
  | [] => split
  | h :: rest =>
    if remaining < cum + (h : Int) then split
    else instructionFitCount remaining (cum + (h : Int)) (split + 1) rest

/-- `instruction_split` as left by the phase-3 loop (lines 214-222),
before the zero-fit fallback. -/
def instructionSplitRawOf (inp : MeasureInput) : Nat :=
  instructionFitCount (remainingRightColumnHeightOf inp) 80 0
    inp.instructionHeights

/-- `instruction_split` after the fallback (lines 225-226): when the loop
fitted nothing, all instructions are forced onto the first page. -/
def instructionSplitOf (inp : MeasureInput) : Nat :=
  if instructionSplitRawOf inp = 0 then inp.numInstructions
  else instructionSplitRawOf inp

/-- `measure_content_and_split` (lines 92-233): the returned `split_data`.
When the ingredients column does not overflow, the initial dictionary of
lines 122-128 is returned with the instruction split applied; when it
overflows, the ingredient lists are overwritten by the phase-1 split
(lines 174-175). -/
def measure_content_and_split (inp : MeasureInput) : SplitData :=
  if ingredientsOverflowOf inp then
    { ingredients_overflow := true
      left_column_ingredients := pyRange 0 (ingredientSplitOf inp)
      right_column_ingredients :=
        pyRange (ingredientSplitOf inp) inp.numIngredients
      first_page_instructions := pyRange 0 (instructionSplitOf inp)
      overflow_instructions :=
        pyRange (instructionSplitOf inp) inp.numInstructions }
  else
    { ingredients_overflow := false
      left_column_ingredients := pyRange 0 inp.numIngredients
      right_column_ingredients := []
      first_page_instructions := pyRange 0 (instructionSplitOf inp)
      overflow_instructions :=
        pyRange (instructionSplitOf inp) inp.numInstructions }

/-- Error taxonomy named by the specification.  No such exception classes
exist anywhere in the repository and `measure_content_and_split` contains
no raise statement and no validation of its inputs. -/
inductive LayoutError where
  | layoutConfigurationError
  | mismatchedInputError
deriving DecidableEq, Repr

/-- `measure_content_and_split` viewed as a fallible computation: the
source performs no validation and cannot fail, so the result is always
`Except.ok`. -/
def measureContentAndSplitE (inp : MeasureInput) :
    Except LayoutError SplitData :=
  Except.ok (measure_content_and_split inp)

/-- Number of non-subheader blocks (one per actual ingredient entry when
the DOM matches the recipe). -/
def nonSubheaderCount (bs : List IngBlock) : Nat :=
  (bs.filter (fun b => !b.isSubheader)).length

/-- Well-formed measurement: the DOM produced one non-subheader block per
ingredient entry and one height per instruction entry. -/
def WellFormedInput (inp : MeasureInput) : Prop :=
  nonSubheaderCount inp.ingredientBlocks = inp.numIngredients ∧
    inp.instructionHeights.length = inp.numInstructions

instance (inp : MeasureInput) : Decidable (WellFormedInput inp) := by
  unfold WellFormedInput; infer_instance

/-- The blocks positioned after the first `split` non-subheader blocks:
drop blocks until `split` non-subheaders have been passed, keep all the
rest (subheaders included). -/
def blocksAfterFit (split : Nat) : List IngBlock → List IngBlock
  | [] => []
  | b :: rest =>
    match split with
    | 0 => b :: rest
    | k + 1 =>
      if b.isSubheader then blocksAfterFit (k + 1) rest
      else blocksAfterFit k rest

/-- Total height of the blocks charged to the right column: every block
positioned after the first `split` non-subheader blocks. -/
def rightColumnBlocksHeight (split : Nat) (bs : List IngBlock) : Nat :=
  ((blocksAfterFit split bs).map IngBlock.height).sum

/-- The partition-and-order contract of a split plan: the ingredient index
lists concatenate to the full ingredient index range (so every index occurs
exactly once), likewise for the instruction index lists, and all four lists
are strictly increasing. -/
def ValidPartition (s : SplitData) (nIng nIns : Nat) : Prop :=
  s.left_column_ingredients ++ s.right_column_ingredients =
      List.range nIng ∧
    s.first_page_instructions ++ s.overflow_instructions =
      List.range nIns ∧
    List.Pairwise (· < ·) s.left_column_ingredients ∧
    List.Pairwise (· < ·) s.right_column_ingredients ∧
    List.Pairwise (· < ·) s.first_page_instructions ∧
    List.Pairwise (· < ·) s.overflow_instructions

/-- One instruction of height 9999: the phase-3 walk fits nothing. -/
def c1Input : MeasureInput := ⟨1, 1, 0, 0, [], [9999]⟩

/-- A single ingredient block of height 1000, taller than the available
934 px, with the column measured as overflowing. -/
def c2Input : MeasureInput := ⟨1, 0, 1000, 0, [⟨1000, false⟩], []⟩

/-- Header plus block heights sum to 10 px, yet the column scroll height
was measured as 1000 px. -/
def c3Input : MeasureInput := ⟨1, 0, 1000, 0, [⟨10, false⟩], []⟩

/-- Two 934 px ingredient blocks: the first fits exactly, the second
overflows, and the overflow container (934 + 80 + 40) drives
`remaining_right_column_height` to -120. -/
def c4Input : MeasureInput :=
  ⟨2, 2, 1000, 0, [⟨934, false⟩, ⟨934, false⟩], [10, 10]⟩

/-- Three instruction heights supplied for a recipe with two
instructions: a mismatched input. -/
def c5Input : MeasureInput := ⟨1, 2, 0, 0, [⟨10, false⟩], [10, 10, 10]⟩

/-- Overflowing input whose overflow container is 464 + 80 + 40,
leaving `remaining_right_column_height = 350`, with five 100 px
instructions. -/
def c8Input : MeasureInput :=
  ⟨1, 5, 1000, 900, [⟨464, false⟩], [100, 100, 100, 100, 100]⟩

/-- Non-overflowing input with some ingredient measurements. -/
def c9InputA : MeasureInput :=
  ⟨2, 1, 900, 50, [⟨5, false⟩, ⟨5, false⟩], [10]⟩

/-- Non-overflowing input with entirely different ingredient
measurements (header 999, no blocks, different column height). -/
def c9InputB : MeasureInput := ⟨2, 1, 10, 999, [], [10]⟩

/-- An item, then a subheader, then a tall item: phase 1 accepts the item
and the subheader (running total 150) and stops at the tall item with
`ingredient_split = 1`. -/
def c10Blocks : List IngBlock := [⟨100, false⟩, ⟨50, true⟩, ⟨900, false⟩]

/-- Overflowing input built over `c10Blocks`. -/
def c10Input : MeasureInput := ⟨2, 0, 1000, 0, c10Blocks, []⟩

end PdfService

namespace PdfService

example : AVAILABLE_HEIGHT = 934 := by decide

example : pyRange 2 5 = [2, 3, 4] := by decide

example : pyRange 3 3 = [] := by decide

example :
    ingredientFitState 60 0 (List.replicate 10 ⟨40, false⟩) = (460, 10) := by
  decide

example :
    instructionFitCount 350 80 0 [100, 100, 100, 100, 100] = 2 := by decide

/-! Helper lemmas about Python ranges. -/

theorem pyRange_zero_eq (n : Nat) : pyRange 0 n = List.range n := by
  simp [pyRange, List.range_eq_range']

theorem pyRange_append_eq (a b : Nat) (h : a ≤ b) :
    pyRange 0 a ++ pyRange a b = List.range b := by
  have h2 := List.range'_append_1 0 a (b - a)
  simp only [Nat.zero_add] at h2
  rw [List.range_eq_range', pyRange, pyRange, Nat.sub_zero, h2,
    Nat.sub_add_cancel h]

theorem pyRange_self_eq (a : Nat) : pyRange a a = [] := by
  simp [pyRange]

theorem pyRange_sorted (a b : Nat) :
    List.Pairwise (· < ·) (pyRange a b) :=
  List.pairwise_lt_range' a (b - a)

theorem pyRange_ne_nil (a b : Nat) (h : a < b) : pyRange a b ≠ [] := by
  intro hnil
  have hlen : (pyRange a b).length = 0 := by rw [hnil]; rfl
  simp only [pyRange, List.length_range'] at hlen
  omega

/-! Helper lemmas about the first-fit walks. -/

theorem nonSubheaderCount_cons (b : IngBlock) (rest : List IngBlock) :
    nonSubheaderCount (b :: rest) =
      (if b.isSubheader then 0 else 1) + nonSubheaderCount rest := by
  by_cases hb : b.isSubheader
  · simp [nonSubheaderCount, List.filter_cons, hb]
  · simp [nonSubheaderCount, List.filter_cons, hb, Nat.add_comm]

theorem ingredientFitState_count_le (bs : List IngBlock) :
    ∀ cum count,
      (ingredientFitState cum count bs).2 ≤
        count + nonSubheaderCount bs := by
  induction bs with
  | nil =>
    intro cum count
    simp [ingredientFitState, nonSubheaderCount]
  | cons b rest ih =>
    intro cum count
    rw [ingredientFitState, nonSubheaderCount_cons]
    by_cases hfit : AVAILABLE_HEIGHT < cum + b.height
    · rw [if_pos hfit]
      exact Nat.le_add_right _ _
    · rw [if_neg hfit]
      by_cases hsub : b.isSubheader
      · rw [if_pos hsub, if_pos hsub]
        exact le_trans (ih _ _) (by omega)
      · rw [if_neg hsub, if_neg hsub]
        exact le_trans (ih _ _) (by omega)

theorem ingredientSplitOf_le (inp : MeasureInput) :
    ingredientSplitOf inp ≤ nonSubheaderCount inp.ingredientBlocks := by
  have h := ingredientFitState_count_le inp.ingredientBlocks
    inp.headerHeight 0
  simpa [ingredientSplitOf] using h

theorem instructionFitCount_le (hs : List Nat) :
    ∀ remaining cum split,
      instructionFitCount remaining cum split hs ≤ split + hs.length := by
  induction hs with
  | nil =>
    intro r c s
    simp [instructionFitCount]
  | cons h rest ih =>
    intro r c s
    rw [instructionFitCount]
    by_cases hfit : r < c + (h : Int)
    · rw [if_pos hfit]
      exact Nat.le_add_right _ _
    · rw [if_neg hfit]
      refine le_trans (ih r (c + (h : Int)) (s + 1)) ?_
      simp only [List.length_cons]
      omega

theorem instructionFitCount_of_lt (remaining cum : Int) (split : Nat)
    (hs : List Nat) (hlt : remaining < cum) :
    instructionFitCount remaining cum split hs = split := by
  cases hs with
  | nil => rfl
  | cons h rest =>
    rw [instructionFitCount, if_pos]
    exact lt_of_lt_of_le hlt (le_add_of_nonneg_right (Int.natCast_nonneg h))

theorem instructionSplitOf_pos (inp : MeasureInput)
    (h : 1 ≤ inp.numInstructions) : 1 ≤ instructionSplitOf inp := by
  unfold instructionSplitOf
  by_cases h0 : instructionSplitRawOf inp = 0
  · simpa [h0] using h
  · simpa [h0] using Nat.pos_of_ne_zero h0

theorem instructionSplitOf_le (inp : MeasureInput)
    (h : inp.instructionHeights.length = inp.numInstructions) :
    instructionSplitOf inp ≤ inp.numInstructions := by
  unfold instructionSplitOf
  by_cases h0 : instructionSplitRawOf inp = 0
  · simp [h0]
  · rw [if_neg h0]
    calc instructionSplitRawOf inp
        ≤ 0 + inp.instructionHeights.length :=
          instructionFitCount_le inp.instructionHeights _ 80 0
      _ = inp.numInstructions := by rw [Nat.zero_add, h]

/-! Helper lemmas about the overflow-height walk. -/

theorem blocksAfterFit_zero (bs : List IngBlock) :
    blocksAfterFit 0 bs = bs := by
  cases bs <;> rfl

theorem blocksAfterFit_succ_cons (k : Nat) (b : IngBlock)
    (rest : List IngBlock) :
    blocksAfterFit (k + 1) (b :: rest) =
      if b.isSubheader then blocksAfterFit (k + 1) rest
      else blocksAfterFit k rest := rfl

theorem overflowHeightFrom_cons (split counter : Nat) (b : IngBlock)
    (rest : List IngBlock) :
    overflowHeightFrom split counter (b :: rest) =
      if b.isSubheader then
        (if split ≤ counter then b.height else 0)
          + overflowHeightFrom split counter rest
      else
        (if split ≤ counter then b.height else 0)
          + overflowHeightFrom split (counter + 1) rest := rfl

theorem overflowHeightFrom_eq (bs : List IngBlock) :
    ∀ split counter,
      overflowHeightFrom split counter bs =
        ((blocksAfterFit (split - counter) bs).map IngBlock.height).sum := by
  induction bs with
  | nil =>
    intro split counter
    simp [overflowHeightFrom, blocksAfterFit]
  | cons b rest ih =>
    intro split counter
    rw [overflowHeightFrom_cons]
    cases hsc : split - counter with
    | zero =>
      have hge : split ≤ counter := by omega
      rw [blocksAfterFit_zero]
      by_cases hsub : b.isSubheader
      · rw [if_pos hsub, if_pos hge, ih split counter, hsc,
          blocksAfterFit_zero]
        simp
      · rw [if_neg hsub, if_pos hge, ih split (counter + 1)]
        have h0 : split - (counter + 1) = 0 := by omega
        rw [h0, blocksAfterFit_zero]
        simp
    | succ k =>
      rw [blocksAfterFit_succ_cons]
      have hno : ¬ split ≤ counter := by omega
      by_cases hsub : b.isSubheader
      · rw [if_pos hsub, if_pos hsub, if_neg hno, ih split counter, hsc]
        simp
      · rw [if_neg hsub, if_neg hsub, if_neg hno, ih split (counter + 1)]
        have hk : split - (counter + 1) = k := by omega
        rw [hk]
        simp

theorem overflowHeightOf_eq (inp : MeasureInput) :
    overflowHeightOf inp =
      rightColumnBlocksHeight (ingredientSplitOf inp)
        inp.ingredientBlocks := by
  unfold overflowHeightOf rightColumnBlocksHeight
  simpa using
    overflowHeightFrom_eq inp.ingredientBlocks (ingredientSplitOf inp) 0

/-! Helper lemmas about the assembled split plan. -/

theorem measure_first_page_eq (inp : MeasureInput) :
    (measure_content_and_split inp).first_page_instructions =
      pyRange 0 (instructionSplitOf inp) := by
  unfold measure_content_and_split
  split <;> rfl

theorem measure_overflow_eq (inp : MeasureInput) :
    (measure_content_and_split inp).overflow_instructions =
      pyRange (instructionSplitOf inp) inp.numInstructions := by
  unfold measure_content_and_split
  split <;> rfl

/-! The claims. -/

/-- Claim C1: for every input with at least one instruction, if the
phase-3 first-fit walk fits zero instructions, all instruction indices
are assigned to the first page and the overflow list is empty, and
consequently the first-page instruction list is never empty. -/
theorem c1_zero_fit_forces_all_first_page (inp : MeasureInput)
    (h : 1 ≤ inp.numInstructions) :
    (instructionSplitRawOf inp = 0 →
      (measure_content_and_split inp).first_page_instructions =
          List.range inp.numInstructions ∧
        (measure_content_and_split inp).overflow_instructions = []) ∧
      (measure_content_and_split inp).first_page_instructions ≠ [] := by
  constructor
  · intro h0
    have hs : instructionSplitOf inp = inp.numInstructions := by
      simp [instructionSplitOf, h0]
    rw [measure_first_page_eq, measure_overflow_eq, hs]
    exact ⟨pyRange_zero_eq _, pyRange_self_eq _⟩
  · rw [measure_first_page_eq]
    exact pyRange_ne_nil _ _ (instructionSplitOf_pos inp h)

/-- Witness for C1 at `c1Input` (one 9999 px instruction, budget 934). -/
theorem c1_witness :
    (measure_content_and_split c1Input).first_page_instructions ≠ [] :=
  (c1_zero_fit_forces_all_first_page c1Input (by decide)).2

/-- Counterexample to claim C2: a single 1000 px ingredient (taller than
the 934 px budget, column overflowing) is assigned to the RIGHT column;
the left column ends up empty, not holding that index. -/
theorem c2_counterexample :
    AVAILABLE_HEIGHT < 1000 ∧
      ingredientsOverflowOf c2Input = true ∧
      (measure_content_and_split c2Input).left_column_ingredients = [] ∧
      (measure_content_and_split c2Input).right_column_ingredients =
        [0] := by
  decide

/-- Claim C2 amended: for a single ingredient whose block height alone
exceeds the available height (column overflowing), the phase-1 walk fits
nothing, so the left column is empty and the right column holds exactly
that one index; there is no forced-inclusion fallback for ingredients. -/
theorem c2_amended_right_column (inp : MeasureInput) (b : IngBlock)
    (hn : inp.numIngredients = 1)
    (hb : inp.ingredientBlocks = [b])
    (hh : AVAILABLE_HEIGHT < b.height)
    (hov : ingredientsOverflowOf inp = true) :
    (measure_content_and_split inp).left_column_ingredients = [] ∧
      (measure_content_and_split inp).right_column_ingredients = [0] := by
  have hsplit : ingredientSplitOf inp = 0 := by
    have hlt : AVAILABLE_HEIGHT < inp.headerHeight + b.height :=
      lt_of_lt_of_le hh (Nat.le_add_left _ _)
    simp [ingredientSplitOf, hb, ingredientFitState, hlt]
  unfold measure_content_and_split
  rw [if_pos hov]
  constructor
  · show pyRange 0 (ingredientSplitOf inp) = []
    rw [hsplit]
    rfl
  · show pyRange (ingredientSplitOf inp) inp.numIngredients = [0]
    rw [hsplit, hn]
    rfl

/-- Witness for the amended C2 at `c2Input`. -/
theorem c2_amended_witness :
    (measure_content_and_split c2Input).left_column_ingredients = [] ∧
      (measure_content_and_split c2Input).right_column_ingredients =
        [0] :=
  c2_amended_right_column c2Input ⟨1000, false⟩ (by decide) (by decide)
    (by decide) (by decide)

/-- Counterexample to claim C3: header plus block heights sum to 10 px,
well within the 934 px budget, yet `ingredients_overflow` is true,
because the flag is decided by the separately measured column scroll
height (1000 px here), not by the header-plus-blocks sum. -/
theorem c3_counterexample :
    c3Input.headerHeight +
        ((c3Input.ingredientBlocks.map IngBlock.height).sum) ≤
        AVAILABLE_HEIGHT ∧
      (measure_content_and_split c3Input).ingredients_overflow = true := by
  decide

/-- Claim C3 amended: for every input whose measured ingredients-column
scroll height is at most the available height, the engine returns
`ingredients_overflow = false` and an empty right column. -/
theorem c3_amended_no_overflow (inp : MeasureInput)
    (h : inp.ingredientsColumnHeight ≤ AVAILABLE_HEIGHT) :
    (measure_content_and_split inp).ingredients_overflow = false ∧
      (measure_content_and_split inp).right_column_ingredients = [] := by
  have hov : ingredientsOverflowOf inp = false := by
    simp only [ingredientsOverflowOf, decide_eq_false_iff_not]
    omega
  unfold measure_content_and_split
  rw [if_neg (by simp [hov])]
  exact ⟨rfl, rfl⟩

/-- Witness for the amended C3 at `c9InputA` (column height 900 ≤ 934). -/
theorem c3_amended_witness :
    (measure_content_and_split c9InputA).ingredients_overflow = false ∧
      (measure_content_and_split c9InputA).right_column_ingredients =
        [] :=
  c3_amended_no_overflow c9InputA (by decide)

/-- Counterexample to claim C4: at `c4Input` the remaining right-column
height is negative (-120), yet NO instruction index is assigned to the
overflow list: the zero-fit fallback forces both instructions onto the
first page. -/
theorem c4_counterexample :
    remainingRightColumnHeightOf c4Input < 0 ∧
      (measure_content_and_split c4Input).first_page_instructions =
        [0, 1] ∧
      (measure_content_and_split c4Input).overflow_instructions = [] := by
  decide

/-- Claim C4 amended: when the remaining right-column height is negative,
the phase-3 walk fits nothing and the fallback forces ALL instruction
indices onto the first page, leaving the overflow list empty. -/
theorem c4_amended_all_first_page (inp : MeasureInput)
    (h : remainingRightColumnHeightOf inp < 0) :
    (measure_content_and_split inp).first_page_instructions =
        List.range inp.numInstructions ∧
      (measure_content_and_split inp).overflow_instructions = [] := by
  have h0 : instructionSplitRawOf inp = 0 := by
    unfold instructionSplitRawOf
    exact instructionFitCount_of_lt _ _ _ _
      (lt_of_lt_of_le h (by norm_num))
  have hs : instructionSplitOf inp = inp.numInstructions := by
    simp [instructionSplitOf, h0]
  rw [measure_first_page_eq, measure_overflow_eq, hs]
  exact ⟨pyRange_zero_eq _, pyRange_self_eq _⟩

/-- Witness for the amended C4 at `c4Input`. -/
theorem c4_amended_witness :
    (measure_content_and_split c4Input).first_page_instructions =
        List.range c4Input.numInstructions ∧
      (measure_content_and_split c4Input).overflow_instructions = [] :=
  c4_amended_all_first_page c4Input (by decide)

/-- Counterexample to claim C5: at `c5Input` three instruction heights
are supplied for a recipe with two instructions, yet the engine does not
fail with `MismatchedInputError` — it returns a split plan (whose
first-page list even contains the out-of-range index 2). -/
theorem c5_counterexample :
    c5Input.instructionHeights.length ≠ c5Input.numInstructions ∧
      measureContentAndSplitE c5Input =
        Except.ok
          { ingredients_overflow := false
            left_column_ingredients := [0]
            right_column_ingredients := []
            first_page_instructions := [0, 1, 2]
            overflow_instructions := [] } :=
  ⟨by decide, rfl⟩

/-- Claim C5 amended: the engine performs no input validation and never
raises: for every input, mismatched or not, it returns a split plan; the
available height is the fixed constant 934, which is positive, so the
`LayoutConfigurationError` condition cannot arise. -/
theorem c5_amended_never_raises (inp : MeasureInput) :
    measureContentAndSplitE inp =
        Except.ok (measure_content_and_split inp) ∧
      0 < AVAILABLE_HEIGHT :=
  ⟨rfl, by decide⟩

/-- Claim C6: for every well-formed input the two ingredient index lists
concatenate to the full ingredient index range and the two instruction
index lists to the full instruction index range (each index exactly
once), and all four lists are strictly increasing. -/
theorem c6_partition_and_order (inp : MeasureInput)
    (h : WellFormedInput inp) :
    ValidPartition (measure_content_and_split inp)
      inp.numIngredients inp.numInstructions := by
  obtain ⟨hIng, hIns⟩ := h
  have hsplitIns : instructionSplitOf inp ≤ inp.numInstructions :=
    instructionSplitOf_le inp hIns
  unfold ValidPartition
  unfold measure_content_and_split
  by_cases hov : ingredientsOverflowOf inp = true
  · have hsplitIng : ingredientSplitOf inp ≤ inp.numIngredients := by
      rw [← hIng]
      exact ingredientSplitOf_le inp
    rw [if_pos hov]
    exact ⟨pyRange_append_eq _ _ hsplitIng,
      pyRange_append_eq _ _ hsplitIns, pyRange_sorted _ _,
      pyRange_sorted _ _, pyRange_sorted _ _, pyRange_sorted _ _⟩
  · rw [if_neg hov]
    refine ⟨?_, pyRange_append_eq _ _ hsplitIns, pyRange_sorted _ _,
      List.Pairwise.nil, pyRange_sorted _ _, pyRange_sorted _ _⟩
    show pyRange 0 inp.numIngredients ++ [] = List.range inp.numIngredients
    rw [List.append_nil, pyRange_zero_eq]

/-- Witness for C6 at `c4Input` (well-formed: two non-subheader blocks
for two ingredients, two heights for two instructions). -/
theorem c6_witness :
    ValidPartition (measure_content_and_split c4Input)
      c4Input.numIngredients c4Input.numInstructions :=
  c6_partition_and_order c4Input (by decide)

/-- Claim C7: whenever ingredients overflow, the remaining right-column
height equals the available height minus the sum of the heights of all
blocks charged to the right column (the blocks positioned after the
first `ingredient_split` non-subheader blocks, subheaders included) plus
the fixed 80 px continued-heading allowance plus the fixed 40 px
container padding allowance. -/
theorem c7_remaining_right_column_height (inp : MeasureInput)
    (h : ingredientsOverflowOf inp = true) :
    remainingRightColumnHeightOf inp =
      (AVAILABLE_HEIGHT : Int) -
        ((rightColumnBlocksHeight (ingredientSplitOf inp)
            inp.ingredientBlocks : Int) + 80 + 40) := by
  unfold remainingRightColumnHeightOf overflowContainerHeightOf
  rw [if_pos h, overflowHeightOf_eq]
  push_cast
  ring

/-- Witness for C7 at `c8Input`. -/
theorem c7_witness :
    remainingRightColumnHeightOf c8Input =
      (AVAILABLE_HEIGHT : Int) -
        ((rightColumnBlocksHeight (ingredientSplitOf c8Input)
            c8Input.ingredientBlocks : Int) + 80 + 40) :=
  c7_remaining_right_column_height c8Input (by decide)

/-- Claim C8: with five 100 px instructions, the 80 px instructions
title, and a remaining right-column height of 350 (as computed at
`c8Input`), the engine puts instructions 0 and 1 on the first page and
overflows instructions 2, 3 and 4. -/
theorem c8_literal_scenario :
    remainingRightColumnHeightOf c8Input = 350 ∧
      c8Input.instructionHeights = [100, 100, 100, 100, 100] ∧
      (measure_content_and_split c8Input).first_page_instructions =
        [0, 1] ∧
      (measure_content_and_split c8Input).overflow_instructions =
        [2, 3, 4] := by
  decide

/-- Claim C9: two inputs with the same recipe counts and the same
instruction heights whose measured ingredients-column heights both fit
the budget yield identical split plans — the ingredient header height
and the per-ingredient block heights are never consulted — and every
ingredient index lands in the left column with the right column empty. -/
theorem c9_no_overflow_noninterference (i1 i2 : MeasureInput)
    (hn : i1.numIngredients = i2.numIngredients)
    (hm : i1.numInstructions = i2.numInstructions)
    (hh : i1.instructionHeights = i2.instructionHeights)
    (h1 : i1.ingredientsColumnHeight ≤ AVAILABLE_HEIGHT)
    (h2 : i2.ingredientsColumnHeight ≤ AVAILABLE_HEIGHT) :
    measure_content_and_split i1 = measure_content_and_split i2 ∧
      (measure_content_and_split i1).left_column_ingredients =
        List.range i1.numIngredients ∧
      (measure_content_and_split i1).right_column_ingredients = [] := by
  have ho1 : ¬ ingredientsOverflowOf i1 = true := by
    simp only [ingredientsOverflowOf, decide_eq_true_eq]
    omega
  have ho2 : ¬ ingredientsOverflowOf i2 = true := by
    simp only [ingredientsOverflowOf, decide_eq_true_eq]
    omega
  have hrem1 : remainingRightColumnHeightOf i1 = (AVAILABLE_HEIGHT : Int) := by
    unfold remainingRightColumnHeightOf
    rw [if_neg ho1]
  have hrem2 : remainingRightColumnHeightOf i2 = (AVAILABLE_HEIGHT : Int) := by
    unfold remainingRightColumnHeightOf
    rw [if_neg ho2]
  have hsplit : instructionSplitOf i1 = instructionSplitOf i2 := by
    unfold instructionSplitOf instructionSplitRawOf
    rw [hrem1, hrem2, hh, hm]
  refine ⟨?_, ?_, ?_⟩
  · unfold measure_content_and_split
    rw [if_neg ho1, if_neg ho2, hn, hm, hsplit]
  · unfold measure_content_and_split
    rw [if_neg ho1]
    exact pyRange_zero_eq _
  · unfold measure_content_and_split
    rw [if_neg ho1]

/-- Witness for C9: `c9InputA` and `c9InputB` differ in header height,
ingredient blocks and column height, yet yield the same split plan. -/
theorem c9_witness :
    measure_content_and_split c9InputA = measure_content_and_split c9InputB ∧
      (measure_content_and_split c9InputA).left_column_ingredients =
        List.range c9InputA.numIngredients ∧
      (measure_content_and_split c9InputA).right_column_ingredients =
        [] :=
  c9_no_overflow_noninterference c9InputA c9InputB rfl rfl rfl
    (by decide) (by decide)

/-- Claim C10: for every overflowing input the phase-2 overflow height
sums the heights of exactly the blocks positioned after the first
`ingredient_split` non-subheader blocks, subheaders included; at
`c10Blocks` the phase-1 walk accepts the 50 px subheader into its
running total (final state (150, 1): 150 = 100 + 50) and yet that same
subheader is in the charged suffix, so its 50 px is counted against both
the left-column fit and the right-column budget (950 = 50 + 900). -/
theorem c10_subheader_double_charged :
    (∀ inp : MeasureInput, ingredientsOverflowOf inp = true →
        overflowHeightOf inp =
          rightColumnBlocksHeight (ingredientSplitOf inp)
            inp.ingredientBlocks) ∧
      ingredientFitState 0 0 c10Blocks = (150, 1) ∧
      blocksAfterFit 1 c10Blocks = [⟨50, true⟩, ⟨900, false⟩] ∧
      rightColumnBlocksHeight 1 c10Blocks = 950 :=
  ⟨fun inp _ => overflowHeightOf_eq inp, by decide, by decide, by decide⟩

/-- Witness for C10 at `c10Input`. -/
theorem c10_witness :
    overflowHeightOf c10Input =
      rightColumnBlocksHeight (ingredientSplitOf c10Input)
        c10Input.ingredientBlocks :=
  c10_subheader_double_charged.1 c10Input (by decide)

end PdfService
